import Mathlib

/-!
Verification of the vector index and hybrid recommendation engine of the
NewsLetter_AI repository.

The embedding models:
* `FAISSService` (backend/app/services/faiss_service.py) as a pure state
  (`IndexState`) with the index operations as state-passing functions.
  Vector components are modelled as rationals; FAISS `IndexFlatL2` exact
  search is modelled as sorting all stored vectors by squared L2 distance.
  Exceptions are modelled with an error component (`Option ServiceError` /
  `Except ServiceError`).
* the recommendation handlers of backend/main_simple.py
  (`_content_based_recs`, `_collaborative_recs`, `hybrid_recommendations`)
  as pure functions over a snapshot of the database tables.
-/

namespace NewsletterAI

/-! ## Data model: FAISS index state -/

/-- State of a `FAISSService` instance: the configured dimension
(`self.dimension`), the dimension of the live faiss index (`self.index.d`,
set from the configured dimension at initialization but replaced wholesale
by `load_index`), the stored vectors (slot order), and the
`article_id_map` dict mapping slots to article ids (association list,
lookup finds the unique entry for a key). -/
structure IndexState where
  dimension : ℕ
  indexDim : ℕ
  vectors : List (List ℚ)
  article_id_map : List (ℕ × ℤ)
deriving DecidableEq, Repr

/-- Errors surfaced by the service (the Python code raises `ValueError`,
faiss assertion errors for wrong-dimension data, and re-raises unpickling
failures; the spec's taxonomy names these `DimensionMismatch` and
`IndexLoadError`). -/
inductive ServiceError where
  | valueError
  | dimensionMismatch
  | indexLoadError
deriving DecidableEq, Repr

/-- Result of `get_index_stats`. -/
structure IndexStats where
  total_vectors : ℕ
  dimension : ℕ
  index_type : String
  articles_indexed : ℕ
deriving DecidableEq, Repr

/-- `get_index_stats`: total vector count, the *configured* dimension,
index type, and the number of mapped slots. -/
def get_index_stats (s : IndexState) : IndexStats :=
  { total_vectors := s.vectors.length
    dimension := s.dimension
    index_type := "IndexFlatL2"
    articles_indexed := s.article_id_map.length }

/-- `_initialize_index`: replaces the faiss index with a fresh empty
`IndexFlatL2(self.dimension)`; the `article_id_map` is untouched. -/
def initialize_index (s : IndexState) : IndexState :=
  { s with indexDim := s.dimension, vectors := [] }

/-- Python dict assignment `m[k] = v`: any previous binding of `k` is
replaced. -/
def dictInsert (m : List (ℕ × ℤ)) (k : ℕ) (v : ℤ) : List (ℕ × ℤ) :=
  m.filter (fun p => p.1 ≠ k) ++ [(k, v)]

/-- Squared Euclidean distance (what faiss `IndexFlatL2` reports). -/
def distSq (q v : List ℚ) : ℚ :=
  (List.zipWith (fun a b => (a - b) * (a - b)) q v).sum

/-- `FAISSService.add_embeddings`: rejects a count mismatch
(`ValueError`), then faiss `index.add` rejects data whose row length is
not the live index dimension; otherwise appends the vectors at fresh
contiguous slots and records `slot → article_id` for each.  The state
component of the result is the state the service holds afterwards (on an
error nothing has been mutated). -/
def add_embeddings (s : IndexState) (embeddings : List (List ℚ)) (article_ids : List ℤ) :
    IndexState × Option ServiceError :=
  if embeddings.length ≠ article_ids.length then (s, some .valueError)
  else if embeddings.any (fun v => v.length ≠ s.indexDim) then (s, some .dimensionMismatch)
  else
    ({ s with
        vectors := s.vectors ++ embeddings
        article_id_map := article_ids.enum.foldl
          (fun m p => dictInsert m (s.vectors.length + p.1) p.2) s.article_id_map },
     none)

/-- Exact k-NN search of faiss `IndexFlatL2`: every stored slot paired
with its squared distance to the query, sorted by ascending distance,
first `min k ntotal` kept. -/
def faissSearch (s : IndexState) (emb : List ℚ) (k : ℕ) : List (ℕ × ℚ) :=
  ((s.vectors.enum.map (fun p => (p.1, distSq emb p.2))).mergeSort
      (fun a b => decide (a.2 ≤ b.2))).take (min k s.vectors.length)

/-- `FAISSService.search_by_embedding`: returns `[]` at once on an empty
index (before any faiss call, for any query); otherwise faiss rejects a
query whose length is not the index dimension; otherwise each hit whose
slot is a key of `article_id_map` is translated to an
`(article_id, distance)` pair and unmapped slots are silently dropped. -/
def search_by_embedding (s : IndexState) (embedding : List ℚ) (top_k : ℕ) :
    Except ServiceError (List (ℤ × ℚ)) :=
  if s.vectors.length = 0 then .ok []
  else if embedding.length ≠ s.indexDim then .error .dimensionMismatch
  else .ok ((faissSearch s embedding top_k).filterMap
      (fun p => (s.article_id_map.lookup p.1).map (fun aid => (aid, p.2))))

/-! ## Helper lemmas about `faissSearch` -/

lemma search_by_embedding_eq (s : IndexState) (emb : List ℚ) (k : ℕ)
    (hv : s.vectors.length ≠ 0) (hdim : emb.length = s.indexDim) :
    search_by_embedding s emb k =
      .ok ((faissSearch s emb k).filterMap
        (fun p => (s.article_id_map.lookup p.1).map (fun aid => (aid, p.2)))) := by
  simp [search_by_embedding, hv, hdim]

lemma faissSearch_length (s : IndexState) (emb : List ℚ) (k : ℕ) :
    (faissSearch s emb k).length ≤ min k s.vectors.length := by
  unfold faissSearch
  simp [List.length_take]

lemma faissSearch_sorted (s : IndexState) (emb : List ℚ) (k : ℕ) :
    (faissSearch s emb k).Pairwise (fun a b => a.2 ≤ b.2) := by
  unfold faissSearch
  refine List.Pairwise.sublist (List.take_sublist _ _) ?_
  have h := @List.sorted_mergeSort (ℕ × ℚ)
    (fun a b => decide (a.2 ≤ b.2))
    (fun a b c hab hbc => by
      simp only [decide_eq_true_eq] at *
      exact le_trans hab hbc)
    (fun a b => by
      simp only [Bool.or_eq_true, decide_eq_true_eq]
      exact le_total a.2 b.2)
    (s.vectors.enum.map (fun p => (p.1, distSq emb p.2)))
  exact h.imp (fun hab => by simpa using hab)

/-- C1. For every index state and every query vector, `search` returns at
most `min k total_count` results as `(article_id, distance)` pairs in
non-decreasing squared-Euclidean-distance order, and returns the empty
sequence (a normal return, not an error) whenever the index holds zero
vectors. -/
theorem search_sorted_bounded_empty_ok (s : IndexState) (embedding : List ℚ) (k : ℕ) :
    (s.vectors = [] → search_by_embedding s embedding k = .ok []) ∧
    (embedding.length = s.indexDim →
      ∃ res, search_by_embedding s embedding k = .ok res ∧
        res.length ≤ min k s.vectors.length ∧
        res.Pairwise (fun a b => a.2 ≤ b.2)) := by
  constructor
  · intro hv
    simp [search_by_embedding, hv]
  · intro hdim
    by_cases hv : s.vectors.length = 0
    · exact ⟨[], by simp [search_by_embedding, hv], by simp, List.Pairwise.nil⟩
    · refine ⟨(faissSearch s embedding k).filterMap
        (fun p => (s.article_id_map.lookup p.1).map (fun aid => (aid, p.2))), ?_, ?_, ?_⟩
      · simp [search_by_embedding, hv, hdim]
      · exact le_trans (List.length_filterMap_le _ _) (faissSearch_length s embedding k)
      · rw [List.pairwise_filterMap]
        refine (faissSearch_sorted s embedding k).imp ?_
        intro a b hab x hx y hy
        simp only [Option.mem_def, Option.map_eq_some'] at hx hy
        obtain ⟨_, _, hx⟩ := hx
        obtain ⟨_, _, hy⟩ := hy
        subst hx; subst hy
        exact hab

/-- Witness for C1 at concrete inputs: an empty index returns `ok []`
even for a query of the wrong dimension, and a populated index returns a
bounded sorted result. -/
theorem search_sorted_bounded_empty_ok_witness :
    (search_by_embedding ⟨2, 2, [], [(0, 5)]⟩ [1, 2, 3] 4 = .ok []) ∧
    (∃ res, search_by_embedding ⟨2, 2, [[0, 0], [3, 4]], [(0, 10), (1, 11)]⟩ [0, 0] 5 = .ok res ∧
      res.length ≤ min 5 2 ∧ res.Pairwise (fun a b => a.2 ≤ b.2)) :=
  ⟨(search_sorted_bounded_empty_ok ⟨2, 2, [], [(0, 5)]⟩ [1, 2, 3] 4).1 rfl,
   (search_sorted_bounded_empty_ok ⟨2, 2, [[0, 0], [3, 4]], [(0, 10), (1, 11)]⟩ [0, 0] 5).2
     (by decide)⟩

/-! ## C10: unmapped slots are silently dropped -/

lemma length_filterMap_eq_countP {α β : Type} (f : α → Option β) (l : List α) :
    (l.filterMap f).length = l.countP (fun a => (f a).isSome) := by
  induction l with
  | nil => simp
  | cons a t ih =>
    cases h : f a with
    | none => simp [List.filterMap_cons, h, List.countP_cons, ih]
    | some b => simp [List.filterMap_cons, h, List.countP_cons, ih]

/-- C10. `search` keeps exactly the nearest-neighbour hits whose slot is a
key of `article_id_map` (unmapped slots are silently dropped), and on a
concrete index holding two vectors but only one mapped slot a `k = 2`
search returns a single result — strictly fewer than
`min k total_count` — as a normal return, not an error. -/
theorem search_drops_unmapped_slots :
    (∀ (s : IndexState) (emb : List ℚ) (k : ℕ),
      s.vectors.length ≠ 0 → emb.length = s.indexDim →
        search_by_embedding s emb k =
          .ok ((faissSearch s emb k).filterMap
            (fun p => (s.article_id_map.lookup p.1).map (fun aid => (aid, p.2)))) ∧
        ((faissSearch s emb k).filterMap
            (fun p => (s.article_id_map.lookup p.1).map (fun aid => (aid, p.2)))).length =
          (faissSearch s emb k).countP
            (fun p => (s.article_id_map.lookup p.1).isSome)) ∧
    (search_by_embedding ⟨2, 2, [[0, 0], [3, 4]], [(0, 10)]⟩ [0, 0] 2 =
        .ok [((10 : ℤ), (0 : ℚ))] ∧
      (1 : ℕ) < min 2 (⟨2, 2, [[0, 0], [3, 4]], [(0, 10)]⟩ : IndexState).vectors.length) := by
  constructor
  · intro s emb k hv hdim
    constructor
    · exact search_by_embedding_eq s emb k hv hdim
    · rw [length_filterMap_eq_countP]
      apply List.countP_congr
      intro p _
      simp [Option.isSome_map]
  · constructor
    · rw [search_by_embedding_eq _ _ _ (by decide) (by decide)]
      norm_num [faissSearch, distSq, List.mergeSort, List.merge, List.enum,
        List.enumFrom, List.lookup, List.filterMap_cons]
      rfl
    · decide

/-- Witness for C10: the general hit-filtering law applied at the
concrete two-vector index with a single mapped slot. -/
theorem search_drops_unmapped_slots_witness :
    search_by_embedding ⟨2, 2, [[0, 0], [3, 4]], [(0, 10)]⟩ [0, 0] 2 =
      .ok ((faissSearch ⟨2, 2, [[0, 0], [3, 4]], [(0, 10)]⟩ [0, 0] 2).filterMap
        (fun p =>
          ((⟨2, 2, [[0, 0], [3, 4]], [(0, 10)]⟩ : IndexState).article_id_map.lookup p.1).map
            (fun aid => (aid, p.2)))) :=
  (search_drops_unmapped_slots.1 ⟨2, 2, [[0, 0], [3, 4]], [(0, 10)]⟩ [0, 0] 2
    (by decide) (by decide)).1

/-! ## Index persistence: save / load -/

/-- The serialized faiss index inside a snapshot (the output of faiss
`serialize_index`: it carries its own dimension and the stored
vectors). -/
structure SnapshotData where
  dim : ℕ
  vectors : List (List ℚ)
deriving DecidableEq, Repr

/-- The dict a snapshot blob unpickles to, as `load_index` reads it
back: the `'index'` entry (`none` when the key is absent or its bytes do
not deserialize to a faiss index) and the `'article_id_map'` entry
(`none` when that key is absent). -/
structure SnapshotDict where
  index : Option SnapshotData
  article_id_map : Option (List (ℕ × ℤ))
deriving DecidableEq, Repr

/-- A stored snapshot blob: `none` models bytes that fail to unpickle at
all; `some d` bytes that unpickle to the dict `d`. -/
def Snapshot : Type := Option SnapshotDict

/-- `FAISSService.save_index`: pickles the serialized live index and the
`article_id_map` under their two dict keys. -/
def save_index (s : IndexState) : Snapshot :=
  some ⟨some ⟨s.indexDim, s.vectors⟩, some s.article_id_map⟩

/-- `FAISSService.load_index`, step for step: an unpickling failure
raises with the state untouched; then
`self.index = faiss.deserialize_index(index_data['index'])` — a missing
or undeserializable `'index'` entry raises, still before any mutation;
then `self.article_id_map = index_data['article_id_map']` — a missing
`'article_id_map'` key raises only now, **after** the index has already
been replaced, leaving a partially-loaded state (new index, old map);
with both entries present the snapshot is installed wholesale, with no
check of the encoded dimension against the configured `self.dimension`
(which is never written). -/
def load_index (s : IndexState) (snap : Snapshot) : IndexState × Option ServiceError :=
  match snap with
  | none => (s, some .indexLoadError)
  | some d =>
      match d.index with
      | none => (s, some .indexLoadError)
      | some idx =>
          match d.article_id_map with
          | none =>
              ({ s with indexDim := idx.dim, vectors := idx.vectors }, some .indexLoadError)
          | some m =>
              ({ s with indexDim := idx.dim, vectors := idx.vectors, article_id_map := m },
               none)

/-- C6. `save` immediately followed by `load` succeeds and reproduces the
very same index state, hence the same `stats()` output and the same
nearest-neighbour answer for every probe query. -/
theorem save_load_round_trip (s : IndexState) :
    load_index s (save_index s) = (s, none) ∧
    get_index_stats (load_index s (save_index s)).1 = get_index_stats s ∧
    ∀ (q : List ℚ) (k : ℕ),
      search_by_embedding (load_index s (save_index s)).1 q k =
        search_by_embedding s q k := by
  refine ⟨rfl, rfl, fun q k => rfl⟩

/-- C8 counterexample: a well-formed snapshot whose encoded dimension
(3) differs from the live configured dimension (2) is **installed**,
not rejected — `load_index` returns no error and replaces the index
with the 3-dimensional snapshot contents; and a corrupt blob whose
`'index'` entry deserializes but whose `'article_id_map'` key is
missing raises only after the index has been replaced, leaving a
partially-loaded state (new index and vectors, old map) rather than
failing cleanly. -/
theorem load_accepts_mismatched_dimension :
    (SnapshotData.dim ⟨3, [[1, 2, 3]]⟩ ≠ (⟨2, 2, [], []⟩ : IndexState).dimension) ∧
    load_index ⟨2, 2, [], []⟩ (some ⟨some ⟨3, [[1, 2, 3]]⟩, some [(0, 7)]⟩) =
      (⟨2, 3, [[1, 2, 3]], [(0, 7)]⟩, none) ∧
    load_index ⟨2, 2, [[5, 6]], [(0, 1)]⟩ (some ⟨some ⟨3, [[1, 2, 3]]⟩, none⟩) =
      (⟨2, 3, [[1, 2, 3]], [(0, 1)]⟩, some .indexLoadError) := by
  exact ⟨by decide, rfl, rfl⟩

/-- C8 (amended). `load` installs any blob that unpickles to a dict
carrying a deserializable index and the slot map, regardless of the
encoded dimension (the configured dimension is left as it was and is
what `stats()` keeps reporting); a blob that fails to unpickle, or
whose `'index'` entry is missing or does not deserialize, raises with
the index state entirely unchanged; a blob whose index deserializes but
which lacks the `'article_id_map'` key raises only after the index has
been replaced, leaving the new index alongside the old map. -/
theorem load_installs_any_wellformed_snapshot (s : IndexState) (snap : Snapshot) :
    (snap = none → load_index s snap = (s, some .indexLoadError)) ∧
    (∀ d, snap = some d → d.index = none →
      load_index s snap = (s, some .indexLoadError)) ∧
    (∀ d idx, snap = some d → d.index = some idx → d.article_id_map = none →
      load_index s snap =
        ({ s with indexDim := idx.dim, vectors := idx.vectors }, some .indexLoadError)) ∧
    (∀ d idx m, snap = some d → d.index = some idx → d.article_id_map = some m →
      load_index s snap = (⟨s.dimension, idx.dim, idx.vectors, m⟩, none) ∧
      get_index_stats (load_index s snap).1 =
        ⟨idx.vectors.length, s.dimension, "IndexFlatL2", m.length⟩) := by
  refine ⟨?_, ?_, ?_, ?_⟩
  · intro h; subst h; rfl
  · intro d h hidx
    subst h
    simp [load_index, hidx]
  · intro d idx h hidx hmap
    subst h
    simp [load_index, hidx, hmap]
  · intro d idx m h hidx hmap
    subst h
    constructor
    · simp [load_index, hidx, hmap]
    · simp [load_index, hidx, hmap, get_index_stats]

/-- Witness for C8 (amended): the clean-failure branch and the full
install branch at concrete inputs. -/
theorem load_installs_any_wellformed_snapshot_witness :
    load_index ⟨2, 2, [[5, 6]], [(0, 1)]⟩ none =
      (⟨2, 2, [[5, 6]], [(0, 1)]⟩, some .indexLoadError) ∧
    load_index ⟨2, 2, [[5, 6]], [(0, 1)]⟩ (some ⟨some ⟨3, [[1, 2, 3]]⟩, some [(0, 7)]⟩) =
      (⟨2, 3, [[1, 2, 3]], [(0, 7)]⟩, none) :=
  ⟨(load_installs_any_wellformed_snapshot ⟨2, 2, [[5, 6]], [(0, 1)]⟩ none).1 rfl,
   ((load_installs_any_wellformed_snapshot ⟨2, 2, [[5, 6]], [(0, 1)]⟩
      (some ⟨some ⟨3, [[1, 2, 3]]⟩, some [(0, 7)]⟩)).2.2.2
      ⟨some ⟨3, [[1, 2, 3]]⟩, some [(0, 7)]⟩ ⟨3, [[1, 2, 3]]⟩ [(0, 7)] rfl rfl rfl).1⟩

/-! ## C5: rebuild_from_embeddings -/

/-- A source row handed to `rebuild_from_embeddings`: the article id and
its stored vector bytes, modelled as `none` when the bytes are empty or
fail to unpickle and `some v` when they decode to the vector `v`. -/
def decodeRows (rows : List (ℤ × Option (List ℚ))) : List (ℤ × List ℚ) :=
  rows.filterMap (fun p => p.2.map (fun v => (p.1, v)))

/-- `FAISSService.rebuild_from_embeddings`: reinitializes the index and
clears the map, returns the empty state when there are no rows or no row
decodes, skips rows that fail to decode, and otherwise stacks the decoded
vectors and adds them with fresh contiguous slots starting at 0 (faiss
raises if a decoded vector's length is not the configured dimension, in
which case the already-cleared state is kept). -/
def rebuild_from_embeddings (s : IndexState) (rows : List (ℤ × Option (List ℚ))) :
    IndexState × Option ServiceError :=
  let s0 : IndexState := { initialize_index s with article_id_map := [] }
  if rows = [] then (s0, none)
  else
    let decoded := decodeRows rows
    if decoded = [] then (s0, none)
    else if decoded.any (fun p => p.2.length ≠ s.dimension) then (s0, some .dimensionMismatch)
    else
      ({ dimension := s.dimension, indexDim := s.dimension
         vectors := decoded.map (fun p => p.2)
         article_id_map := (decoded.map (fun p => p.1)).enum },
       none)

/-- The state a successful rebuild produces, determined by the configured
dimension and the source rows alone. -/
def rebuiltState (dim : ℕ) (rows : List (ℤ × Option (List ℚ))) : IndexState :=
  { dimension := dim, indexDim := dim
    vectors := (decodeRows rows).map (fun p => p.2)
    article_id_map := ((decodeRows rows).map (fun p => p.1)).enum }

lemma rebuild_eq_rebuiltState (s : IndexState) (rows : List (ℤ × Option (List ℚ)))
    (h : ∀ p ∈ decodeRows rows, p.2.length = s.dimension) :
    rebuild_from_embeddings s rows = (rebuiltState s.dimension rows, none) := by
  unfold rebuild_from_embeddings rebuiltState initialize_index
  have hany : (decodeRows rows).any (fun p => decide (p.2.length ≠ s.dimension)) = false := by
    simp only [List.any_eq_false, decide_eq_true_eq, not_not]
    exact h
  by_cases hrows : rows = []
  · subst hrows
    simp [decodeRows]
  · simp only [if_neg hrows]
    by_cases hdec : decodeRows rows = []
    · simp [hdec]
    · simp only [if_neg hdec, hany]
      simp only [List.any_eq_false, decide_eq_true_eq, not_not] at hany
      simp [hany, fun a v hv => h (a, v) hv]

/-- C5. `rebuild` ignores the prior index contents entirely (any two
states with the same configured dimension rebuild to the same result),
skips rows that fail to decode while keeping the rest, assigns fresh
contiguous slots `0, 1, …` to exactly the decoded `(article_id, vector)`
pairs, and is idempotent: rebuilding again from the same rows yields the
same pairs once more. -/
theorem rebuild_discards_skips_contiguous_idempotent
    (s : IndexState) (rows : List (ℤ × Option (List ℚ)))
    (h : ∀ p ∈ decodeRows rows, p.2.length = s.dimension) :
    (∀ s' : IndexState, s'.dimension = s.dimension →
      rebuild_from_embeddings s' rows = rebuild_from_embeddings s rows) ∧
    rebuild_from_embeddings s rows = (rebuiltState s.dimension rows, none) ∧
    (rebuiltState s.dimension rows).vectors = (decodeRows rows).map (fun p => p.2) ∧
    ((rebuiltState s.dimension rows).article_id_map.map (fun p => p.1) =
      List.range (decodeRows rows).length ∧
     (rebuiltState s.dimension rows).article_id_map.map (fun p => p.2) =
      (decodeRows rows).map (fun p => p.1)) ∧
    rebuild_from_embeddings (rebuiltState s.dimension rows) rows =
      (rebuiltState s.dimension rows, none) := by
  refine ⟨?_, rebuild_eq_rebuiltState s rows h, rfl, ⟨?_, ?_⟩, ?_⟩
  · intro s' hdim
    rw [rebuild_eq_rebuiltState s rows h, rebuild_eq_rebuiltState s' rows (by rw [hdim]; exact h),
      hdim]
  · simp [rebuiltState, List.enum_map_fst]
  · simp [rebuiltState, List.enum_map_snd]
  · exact rebuild_eq_rebuiltState (rebuiltState s.dimension rows) rows h

/-- Witness for C5: a concrete rebuild over three rows of which the
middle one fails to decode; slots come out contiguous from 0 and the
prior contents of the index are gone. -/
theorem rebuild_discards_skips_contiguous_idempotent_witness :
    rebuild_from_embeddings ⟨2, 2, [[9, 9]], [(0, 5)]⟩
        [(1, some [1, 0]), (2, none), (3, some [0, 1])] =
      (rebuiltState 2 [(1, some [1, 0]), (2, none), (3, some [0, 1])], none) ∧
    rebuiltState 2 [(1, some [1, 0]), (2, none), (3, some [0, 1])] =
      ⟨2, 2, [[1, 0], [0, 1]], [(0, 1), (1, 3)]⟩ := by
  constructor
  · exact (rebuild_discards_skips_contiguous_idempotent ⟨2, 2, [[9, 9]], [(0, 5)]⟩
      [(1, some [1, 0]), (2, none), (3, some [0, 1])] (by decide)).2.1
  · rfl

/-! ## C7: failed insertions leave the index unchanged -/

/-- C7. An insertion whose vector count differs from its article-id
count, or in which some vector's length is not the configured dimension,
fails with an error, and the state the service keeps is exactly the prior
one — in particular `stats().total_vectors` is unchanged. -/
theorem add_embeddings_rejects_bad_input (s : IndexState)
    (embeddings : List (List ℚ)) (article_ids : List ℤ)
    (hwf : s.indexDim = s.dimension)
    (h : embeddings.length ≠ article_ids.length ∨
      ∃ v ∈ embeddings, v.length ≠ s.dimension) :
    ∃ e, add_embeddings s embeddings article_ids = (s, some e) ∧
      get_index_stats (add_embeddings s embeddings article_ids).1 = get_index_stats s := by
  rcases h with h | ⟨v, hv, hlen⟩
  · exact ⟨.valueError, by simp [add_embeddings, h], by simp [add_embeddings, h]⟩
  · by_cases hlen2 : embeddings.length = article_ids.length
    · have hex : ∃ w ∈ embeddings, ¬w.length = s.indexDim := ⟨v, hv, by rw [hwf]; exact hlen⟩
      refine ⟨.dimensionMismatch, ?_, ?_⟩
      · simp [add_embeddings, hlen2, hex]
      · simp [add_embeddings, hlen2, hex]
    · exact ⟨.valueError, by simp [add_embeddings, hlen2], by simp [add_embeddings, hlen2]⟩

/-- Witness for C7: inserting a single vector of length `D + 1 = 3` into
a two-dimensional index fails and leaves the stats unchanged. -/
theorem add_embeddings_rejects_bad_input_witness :
    ∃ e, add_embeddings ⟨2, 2, [[1, 1]], [(0, 4)]⟩ [[1, 2, 3]] [9] =
        (⟨2, 2, [[1, 1]], [(0, 4)]⟩, some e) ∧
      get_index_stats (add_embeddings ⟨2, 2, [[1, 1]], [(0, 4)]⟩ [[1, 2, 3]] [9]).1 =
        get_index_stats ⟨2, 2, [[1, 1]], [(0, 4)]⟩ :=
  add_embeddings_rejects_bad_input ⟨2, 2, [[1, 1]], [(0, 4)]⟩ [[1, 2, 3]] [9] rfl
    (Or.inr ⟨[1, 2, 3], by decide, by decide⟩)

/-! ## C2: the Hybrid Ranker (hybrid_recommendations fusion step) -/

/-- The fused score `hybrid_recommendations` assigns an article id:
`0.7` for membership in the content results plus `0.3` for membership in
the collaborative results — membership only, the content distances play
no role. -/
def hybrid_score (content_ids collab_recs : List ℤ) (aid : ℤ) : ℚ :=
  (if aid ∈ content_ids then 7/10 else 0) + (if aid ∈ collab_recs then 3/10 else 0)

/-- The ranked id list `hybrid_recommendations` builds when the union is
non-empty: the union of the two id sets, sorted by descending fused
score, first `k` kept. -/
def hybrid_ranked_ids (content_recs : List (ℤ × ℚ)) (collab_recs : List ℤ) (k : ℕ) :
    List ℤ :=
  ((((content_recs.map (fun p => p.1)) ++ collab_recs).dedup).mergeSort
    (fun a b => decide (hybrid_score (content_recs.map (fun p => p.1)) collab_recs b ≤
      hybrid_score (content_recs.map (fun p => p.1)) collab_recs a))).take k

/-- C2. The Hybrid Ranker scores every id of the union additively by
source membership alone (0.7 content + 0.3 collaborative), sorts the
union by non-increasing fused score, returns the first `k` of it — and on
content results `[(5, 0.1), (7, 0.4)]`, collaborative results `[7, 9]`
and `k = 3` the ranked id list is `[7, 5, 9]`. -/
theorem hybrid_ranker_fuses_by_membership
    (content_recs : List (ℤ × ℚ)) (collab_recs : List ℤ) (k : ℕ) :
    (∀ aid, aid ∈ ((content_recs.map (fun p => p.1)) ++ collab_recs).dedup ↔
      (aid ∈ content_recs.map (fun p => p.1) ∨ aid ∈ collab_recs)) ∧
    (∀ aid ∈ hybrid_ranked_ids content_recs collab_recs k,
      aid ∈ content_recs.map (fun p => p.1) ∨ aid ∈ collab_recs) ∧
    (hybrid_ranked_ids content_recs collab_recs k).length =
      min k (((content_recs.map (fun p => p.1)) ++ collab_recs).dedup).length ∧
    (hybrid_ranked_ids content_recs collab_recs k).Pairwise
      (fun a b => hybrid_score (content_recs.map (fun p => p.1)) collab_recs b ≤
        hybrid_score (content_recs.map (fun p => p.1)) collab_recs a) ∧
    hybrid_ranked_ids [(5, 1/10), (7, 2/5)] [7, 9] 3 = [7, 5, 9] := by
  refine ⟨?_, ?_, ?_, ?_, ?_⟩
  · intro aid
    simp [List.mem_dedup]
  · intro aid hmem
    have : aid ∈ ((content_recs.map (fun p => p.1)) ++ collab_recs).dedup := by
      have h1 := List.take_sublist k
        ((((content_recs.map (fun p => p.1)) ++ collab_recs).dedup).mergeSort
          (fun a b => decide (hybrid_score (content_recs.map (fun p => p.1)) collab_recs b ≤
            hybrid_score (content_recs.map (fun p => p.1)) collab_recs a)))
      have h2 := h1.mem hmem
      rwa [List.mem_mergeSort] at h2
    simpa [List.mem_dedup] using this
  · unfold hybrid_ranked_ids
    simp [List.length_take]
  · unfold hybrid_ranked_ids
    refine List.Pairwise.sublist (List.take_sublist _ _) ?_
    have h := @List.sorted_mergeSort ℤ
      (fun a b => decide (hybrid_score (content_recs.map (fun p => p.1)) collab_recs b ≤
        hybrid_score (content_recs.map (fun p => p.1)) collab_recs a))
      (fun a b c hab hbc => by
        simp only [decide_eq_true_eq] at *
        exact le_trans hbc hab)
      (fun a b => by
        simp only [Bool.or_eq_true, decide_eq_true_eq]
        exact le_total _ _)
      (((content_recs.map (fun p => p.1)) ++ collab_recs).dedup)
    exact h.imp (fun hab => by simpa using hab)
  · norm_num [hybrid_ranked_ids, hybrid_score, List.dedup, List.pwFilter,
      List.mergeSort, List.merge]

/-! ## C9: the Content Recommender (_content_based_recs) -/

/-- A row of the UserFeedback table. -/
structure Feedback where
  user : ℤ
  article : ℤ
  rating : ℚ
deriving DecidableEq, Repr

/-- The feedback rows of `user_id` with rating ≥ 4 (the "liked"
threshold). -/
def liked_rows (feedback : List Feedback) (user_id : ℤ) : List Feedback :=
  feedback.filter (fun fb => fb.user = user_id ∧ 4 ≤ fb.rating)

/-- Lookup of an article's stored vector in the FAISSEmbedding table
(first row for the article id): `none` when there is no row, or when the
row's bytes are empty or fail to unpickle. -/
def stored_embedding (store : List (ℤ × Option (List ℚ))) (aid : ℤ) : Option (List ℚ) :=
  ((store.find? (fun p => p.1 = aid)).map (fun p => p.2)).join

/-- The vectors that resolve for a list of liked rows; liked articles
lacking a stored vector are silently skipped. -/
def resolved_vectors (store : List (ℤ × Option (List ℚ))) (liked : List Feedback) :
    List (List ℚ) :=
  liked.filterMap (fun fb => stored_embedding store fb.article)

/-- `np.mean(np.vstack(vs), axis=0)`: the element-wise mean. -/
def mean_vec (vs : List (List ℚ)) : List ℚ :=
  match vs with
  | [] => []
  | v :: rest =>
      (rest.foldl (fun acc w => List.zipWith (fun a b => a + b) acc w) v).map
        (fun x => x / (vs.length : ℚ))

/-- `_content_based_recs`: empty when the user has no liked row; empty
when none of the liked articles' vectors resolve; otherwise the index
queried with the mean of the resolved vectors. -/
def content_based_recs (user_id : ℤ) (top_k : ℕ) (feedback : List Feedback)
    (store : List (ℤ × Option (List ℚ))) (s : IndexState) :
    Except ServiceError (List (ℤ × ℚ)) :=
  let liked := liked_rows feedback user_id
  if liked = [] then .ok []
  else
    let embeddings := resolved_vectors store liked
    if embeddings = [] then .ok []
    else search_by_embedding s (mean_vec embeddings) top_k

/-- C9. The Content Recommender returns the empty sequence as a success
for every user with no liked row (rating ≥ 4) and for every user none of
whose liked articles has a stored vector; otherwise it queries the
Vector Index with the element-wise mean of the resolved vectors (liked
articles lacking a vector are skipped inside `resolved_vectors`). -/
theorem content_recs_empty_or_mean_query (user_id : ℤ) (top_k : ℕ)
    (feedback : List Feedback) (store : List (ℤ × Option (List ℚ))) (s : IndexState) :
    (liked_rows feedback user_id = [] →
      content_based_recs user_id top_k feedback store s = .ok []) ∧
    (resolved_vectors store (liked_rows feedback user_id) = [] →
      content_based_recs user_id top_k feedback store s = .ok []) ∧
    (resolved_vectors store (liked_rows feedback user_id) ≠ [] →
      content_based_recs user_id top_k feedback store s =
        search_by_embedding s
          (mean_vec (resolved_vectors store (liked_rows feedback user_id))) top_k) := by
  refine ⟨?_, ?_, ?_⟩
  · intro h
    simp [content_based_recs, h]
  · intro h
    by_cases hl : liked_rows feedback user_id = []
    · simp [content_based_recs, hl]
    · simp [content_based_recs, hl, h]
  · intro h
    have hl : liked_rows feedback user_id ≠ [] := by
      intro hl
      exact h (by simp [hl, resolved_vectors])
    simp [content_based_recs, hl, h]

/-- Witness for C9: a user with no liked row gets `ok []`; a user with a
liked, resolvable article gets exactly the mean-vector index query. -/
theorem content_recs_empty_or_mean_query_witness :
    content_based_recs 3 2 [⟨1, 10, 5⟩, ⟨1, 11, 3⟩, ⟨2, 12, 5⟩] [(10, some [1, 1])]
        ⟨2, 2, [[1, 1]], [(0, 10)]⟩ = .ok [] ∧
    content_based_recs 1 2 [⟨1, 10, 5⟩, ⟨1, 11, 3⟩, ⟨2, 12, 5⟩] [(10, some [1, 1])]
        ⟨2, 2, [[1, 1]], [(0, 10)]⟩ =
      search_by_embedding ⟨2, 2, [[1, 1]], [(0, 10)]⟩
        (mean_vec (resolved_vectors [(10, some [1, 1])]
          (liked_rows [⟨1, 10, 5⟩, ⟨1, 11, 3⟩, ⟨2, 12, 5⟩] 1))) 2 :=
  ⟨(content_recs_empty_or_mean_query 3 2 [⟨1, 10, 5⟩, ⟨1, 11, 3⟩, ⟨2, 12, 5⟩]
      [(10, some [1, 1])] ⟨2, 2, [[1, 1]], [(0, 10)]⟩).1 (by decide),
   (content_recs_empty_or_mean_query 1 2 [⟨1, 10, 5⟩, ⟨1, 11, 3⟩, ⟨2, 12, 5⟩]
      [(10, some [1, 1])] ⟨2, 2, [[1, 1]], [(0, 10)]⟩).2.2 (by decide)⟩

/-! ## C3, C4: the Collaborative Recommender (_collaborative_recs)

Vector norms are real square roots, so this part of the embedding lives
in `ℝ` (noncomputable, with classical decidability for the sort
comparators). -/

open scoped Classical

/-- `sorted({r.user_id for r in rows})`. -/
def users_of (rows : List Feedback) : List ℤ :=
  ((rows.map (fun r => r.user)).dedup).mergeSort (fun a b => decide (a ≤ b))

/-- `sorted({r.article_id for r in rows})`. -/
def articles_of (rows : List Feedback) : List ℤ :=
  ((rows.map (fun r => r.article)).dedup).mergeSort (fun a b => decide (a ≤ b))

/-- The rating the matrix-filling loop leaves in cell `(u, a)`: the
rating of the last feedback row for that user and article, `0` when
there is none. -/
def ratingOf (rows : List Feedback) (u a : ℤ) : ℚ :=
  ((rows.filter (fun r => r.user = u ∧ r.article = a)).getLast?).elim 0 (fun r => r.rating)

/-- The dense RatingMatrix: one row per distinct user, one column per
distinct rated article, unrated cells 0. -/
def rating_matrix (rows : List Feedback) : List (List ℚ) :=
  (users_of rows).map (fun u => (articles_of rows).map (fun a => ratingOf rows u a))

/-- `target = matrix[user_index[user_id]]`. -/
def collab_target (rows : List Feedback) (user_id : ℤ) : List ℚ :=
  (rating_matrix rows).getD ((users_of rows).indexOf user_id) []

/-- Dot product of two rating rows. -/
def dotQ (u v : List ℚ) : ℚ := (List.zipWith (fun a b => a * b) u v).sum

/-- `np.linalg.norm`: the Euclidean norm. -/
noncomputable def rnorm (v : List ℚ) : ℝ := Real.sqrt ((dotQ v v : ℚ) : ℝ)

/-- The `1e-6` guard constant. -/
noncomputable def eps : ℝ := 1 / 1000000

/-- `norms = np.linalg.norm(matrix, axis=1) * (np.linalg.norm(target) + 1e-6) + 1e-6`. -/
noncomputable def collab_norms (M : List (List ℚ)) (t : List ℚ) : List ℝ :=
  M.map (fun row => rnorm row * (rnorm t + eps) + eps)

/-- `sims = (matrix @ target) / norms`. -/
noncomputable def collab_sims (M : List (List ℚ)) (t : List ℚ) : List ℝ :=
  List.zipWith (fun d n => d / n)
    (M.map (fun row => ((dotQ row t : ℚ) : ℝ))) (collab_norms M t)

/-- The per-row similarity the code's vectorized computation realizes:
`(u · target) / (‖u‖ · (‖target‖ + ε) + ε)`. -/
noncomputable def simCode (u t : List ℚ) : ℝ :=
  ((dotQ u t : ℚ) : ℝ) / (rnorm u * (rnorm t + eps) + eps)

/-- Modelled from the spec: the similarity formula the specification
states for the Collaborative Recommender,
`sim(u, target) = (u · target) / (‖u‖·‖target‖ + ε)`, written here only
to compare against the code's `collab_sims`. -/
noncomputable def simSpec (u t : List ℚ) : ℝ :=
  ((dotQ u t : ℚ) : ℝ) / (rnorm u * rnorm t + eps)

lemma collab_sims_length (M : List (List ℚ)) (t : List ℚ) :
    (collab_sims M t).length = M.length := by
  simp [collab_sims, collab_norms]

/-- C3 counterexample: for the one-user rating matrix `[[3, 4]]` with
the target being that same row, the similarity the code computes is
`25 / (25 + 6e-6)`, not the spec's `25 / (25 + 1e-6)`: the code
multiplies the ε-padded target norm by the row norm before adding ε
again, instead of padding the product of norms once. -/
theorem collab_sims_ne_spec_formula :
    (collab_sims [[3, 4]] [3, 4]).getD 0 0 ≠ simSpec [3, 4] [3, 4] := by
  have hdot : ((dotQ [3, 4] [3, 4] : ℚ) : ℝ) = 25 := by norm_num [dotQ]
  have hn : rnorm [3, 4] = 5 := by
    unfold rnorm
    rw [hdot, show (25 : ℝ) = 5 ^ 2 by norm_num, Real.sqrt_sq (by norm_num : (0:ℝ) ≤ 5)]
  unfold collab_sims collab_norms simSpec eps
  simp only [List.map_cons, List.map_nil, List.zipWith_cons_cons, List.zipWith_nil_right,
    List.getD_cons_zero, hdot, hn]
  norm_num

/-- C3 (amended). For every rating matrix and every row index `u`, the
similarity the Collaborative Recommender computes for row `u` against
the target is `(u · target) / (‖u‖ · (‖target‖ + ε) + ε)` with
`ε = 1e-6`: the ε guard is applied to the target's norm factor and then
once more to the whole denominator. -/
theorem collab_sims_eq_code_formula (M : List (List ℚ)) (t : List ℚ) (u : ℕ)
    (h : u < M.length) :
    (collab_sims M t).getD u 0 = simCode (M.getD u []) t := by
  have h2 : u < (collab_sims M t).length := by rwa [collab_sims_length]
  rw [List.getD_eq_getElem _ _ h2, List.getD_eq_getElem _ _ h]
  unfold collab_sims collab_norms simCode
  rw [List.getElem_zipWith, List.getElem_map, List.getElem_map]

/-- Witness for C3 (amended) at the concrete one-row matrix `[[3, 4]]`. -/
theorem collab_sims_eq_code_formula_witness :
    (collab_sims [[3, 4]] [3, 4]).getD 0 0 =
      simCode (([[3, 4]] : List (List ℚ)).getD 0 []) [3, 4] :=
  collab_sims_eq_code_formula [[3, 4]] [3, 4] 0 (by decide)

/-- Whether `user_id` has any feedback row for article `a` (the zero-out
loop fires for that article's column). -/
def rated (rows : List Feedback) (u a : ℤ) : Bool :=
  rows.any (fun r => decide (r.user = u) && decide (r.article = a))

/-- `scores_vec = sims @ matrix`: column `j`'s similarity-weighted sum of
every user's rating. -/
noncomputable def collab_scores (rows : List Feedback) (user_id : ℤ) (j : ℕ) : ℝ :=
  (List.zipWith (fun s row => s * ((row.getD j 0 : ℚ) : ℝ))
    (collab_sims (rating_matrix rows) (collab_target rows user_id))
    (rating_matrix rows)).sum

/-- The score vector after the zero-out loop: columns of articles the
target user has already rated are set to 0. -/
noncomputable def final_scores (rows : List Feedback) (user_id : ℤ) (j : ℕ) : ℝ :=
  if rated rows user_id ((articles_of rows).getD j 0) then 0
  else collab_scores rows user_id j

/-- `top_indices = scores_vec.argsort()[::-1]`: all column indices,
sorted by ascending score, reversed. -/
noncomputable def collab_ranked_indices (rows : List Feedback) (user_id : ℤ) : List ℕ :=
  ((List.range (articles_of rows).length).mergeSort
    (fun i j => decide (final_scores rows user_id i ≤ final_scores rows user_id j))).reverse

/-- `_collaborative_recs`: empty on no feedback or unknown user;
otherwise the first `top_k` of the descending score order, filtered to
strictly positive scores, mapped back to article ids. -/
noncomputable def collaborative_recs (rows : List Feedback) (user_id : ℤ) (top_k : ℕ) :
    List ℤ :=
  if rows = [] then []
  else if user_id ∉ users_of rows then []
  else (((collab_ranked_indices rows user_id).take top_k).filter
      (fun i => decide (0 < final_scores rows user_id i))).map
    (fun i => (articles_of rows).getD i 0)

/-- The article ids of the top `top_k` positive-scoring columns in
descending score order (filter before truncation). -/
noncomputable def collab_top_positive (rows : List Feedback) (user_id : ℤ) (top_k : ℕ) :
    List ℤ :=
  (((collab_ranked_indices rows user_id).filter
      (fun i => decide (0 < final_scores rows user_id i))).take top_k).map
    (fun i => (articles_of rows).getD i 0)

lemma collab_ranked_indices_sorted (rows : List Feedback) (user_id : ℤ) :
    (collab_ranked_indices rows user_id).Pairwise
      (fun i j => final_scores rows user_id j ≤ final_scores rows user_id i) := by
  unfold collab_ranked_indices
  rw [List.pairwise_reverse]
  have h := @List.sorted_mergeSort ℕ
    (fun i j => decide (final_scores rows user_id i ≤ final_scores rows user_id j))
    (fun a b c hab hbc => by
      simp only [decide_eq_true_eq] at *
      exact le_trans hab hbc)
    (fun a b => by
      simp only [Bool.or_eq_true, decide_eq_true_eq]
      exact le_total _ _)
    (List.range (articles_of rows).length)
  exact h.imp (fun hab => by simpa using hab)

/-- In a list sorted by non-increasing score, filtering to positive
scores commutes with truncation: the positives form a prefix. -/
lemma filter_take_comm_of_sorted {α : Type} (f : α → ℝ) (p : α → Bool)
    (hp : ∀ a, p a = true ↔ 0 < f a) :
    ∀ (l : List α) (k : ℕ), l.Pairwise (fun a b => f b ≤ f a) →
      (l.take k).filter p = (l.filter p).take k
  | [], k, _ => by simp
  | a :: t, 0, _ => by simp
  | a :: t, k + 1, h => by
    have ha := (List.pairwise_cons.mp h).1
    have ht := (List.pairwise_cons.mp h).2
    by_cases hpa : p a = true
    · rw [List.take_succ_cons, List.filter_cons_of_pos hpa, List.filter_cons_of_pos hpa,
        List.take_succ_cons, filter_take_comm_of_sorted f p hp t k ht]
    · have hnpos : ¬ 0 < f a := fun hlt => hpa ((hp a).mpr hlt)
      have hall : ∀ b ∈ t, ¬ p b = true := by
        intro b hb hpb
        exact hnpos (lt_of_lt_of_le ((hp b).mp hpb) (ha b hb))
      have h1 : t.filter p = [] := List.filter_eq_nil_iff.mpr hall
      have h2 : (t.take k).filter p = [] :=
        List.filter_eq_nil_iff.mpr (fun b hb => hall b ((List.take_sublist k t).subset hb))
      rw [List.take_succ_cons, List.filter_cons_of_neg hpa, List.filter_cons_of_neg hpa, h1, h2,
        List.take_nil]

/-- C4. The Collaborative Recommender never returns an article the
target user has already rated (its column score was zeroed, and only
strictly positive scores survive), and what it returns is exactly the
first `top_k` of the positive-scoring columns in non-increasing score
order — articles with score ≤ 0 are excluded even when that leaves
fewer than `top_k` results. -/
theorem collab_excludes_rated_returns_top_positive
    (rows : List Feedback) (user_id : ℤ) (top_k : ℕ) :
    (∀ r ∈ rows, r.user = user_id →
      r.article ∉ collaborative_recs rows user_id top_k) ∧
    collaborative_recs rows user_id top_k =
      (if rows = [] ∨ user_id ∉ users_of rows then []
       else collab_top_positive rows user_id top_k) ∧
    ((collab_ranked_indices rows user_id).filter
        (fun i => decide (0 < final_scores rows user_id i))).Pairwise
      (fun i j => final_scores rows user_id j ≤ final_scores rows user_id i) ∧
    (∀ i ∈ (collab_ranked_indices rows user_id).filter
        (fun i => decide (0 < final_scores rows user_id i)),
      0 < final_scores rows user_id i) := by
  refine ⟨?_, ?_, ?_, ?_⟩
  · intro r hr hru hmem
    unfold collaborative_recs at hmem
    by_cases h0 : rows = []
    · simp [h0] at hmem
    · by_cases h1 : user_id ∉ users_of rows
      · simp [h0, h1] at hmem
      · simp only [if_neg h0, if_neg h1, List.mem_map] at hmem
        obtain ⟨i, hi, hart⟩ := hmem
        have hpos : 0 < final_scores rows user_id i :=
          of_decide_eq_true (List.mem_filter.mp hi).2
        have hrated : rated rows user_id ((articles_of rows).getD i 0) = true := by
          rw [hart, rated, List.any_eq_true]
          exact ⟨r, hr, by simp [hru]⟩
        rw [final_scores, if_pos hrated] at hpos
        exact lt_irrefl 0 hpos
  · unfold collaborative_recs
    by_cases h0 : rows = []
    · simp [h0]
    · by_cases h1 : user_id ∉ users_of rows
      · simp [h0, h1]
      · have hcond : ¬(rows = [] ∨ user_id ∉ users_of rows) := fun hc => hc.elim h0 h1
        rw [if_neg h0, if_neg h1, if_neg hcond]
        unfold collab_top_positive
        rw [filter_take_comm_of_sorted (final_scores rows user_id)
          (fun i => decide (0 < final_scores rows user_id i))
          (fun a => by simp)
          (collab_ranked_indices rows user_id) top_k
          (collab_ranked_indices_sorted rows user_id)]
  · exact (collab_ranked_indices_sorted rows user_id).filter _
  · intro i hi
    exact of_decide_eq_true (List.mem_filter.mp hi).2

end NewsletterAI
